import Mathlib

/-!
Verification development for the Borrower view component
(src/frontend/src/components/Borrower.js).

The component is a single React page. We embed its handlers as pure Lean
functions over an explicit component state, with every external call
(wallet provider, contract reads, transactions, balance queries, the HTTP
price fetch) supplied as an explicit oracle argument and recorded in an
event trace. JavaScript `number` arithmetic is carried by exact rationals
(ℚ), with NaN represented by `Option.none` where the source can produce it;
base-unit (wei) amounts are natural numbers, with ethers BigNumber
`div` being truncating division on non-negative values, i.e. `Nat` division.
Where binary64 rounding is semantically load-bearing — the repayment
flow's amount→USD→amount round trip — theorems do not rely on exact
cancellation: they take the re-parsed wei result as a hypothesis, and an
integer-level binary64 development (`roundsToF64`, `shortestDecimal`)
traces the rounded computation at concrete inputs, exhibiting its
divergence from the exact result.
-/

namespace LendingBorrower

/-! ## JavaScript number parsing (parseFloat, Number, Math.floor, Math.ceil) -/

/-- Numeric value of a list of decimal digit characters. -/
def natOfDigits (l : List Char) : ℕ :=
  l.foldl (fun a c => a * 10 + (c.toNat - 48)) 0

/-- Parse an unsigned decimal mantissa (digits, optional point, digits);
returns the value and the unconsumed rest, or `none` when no digit is
present. -/
def parseUnsigned (l : List Char) : Option (ℚ × List Char) :=
  let ip := l.takeWhile Char.isDigit
  match l.dropWhile Char.isDigit with
  | '.' :: rest2 =>
    let fp := rest2.takeWhile Char.isDigit
    if ip = [] ∧ fp = [] then none
    else some ((natOfDigits ip : ℚ) + (natOfDigits fp : ℚ) / 10 ^ fp.length,
      rest2.dropWhile Char.isDigit)
  | rest => if ip = [] then none else some ((natOfDigits ip : ℚ), rest)

/-- Parse the tail of an exponent part (after the letter), with optional
sign and at least one digit. -/
def parseExpTail (r : List Char) : Option (ℤ × List Char) :=
  let sr : ℤ × List Char :=
    match r with
    | '-' :: t => (-1, t)
    | '+' :: t => (1, t)
    | _ => (1, r)
  let ds := sr.2.takeWhile Char.isDigit
  if ds = [] then none
  else some (sr.1 * (natOfDigits ds : ℤ), sr.2.dropWhile Char.isDigit)

/-- Optional exponent part of a JS decimal literal. -/
def parseExpPart : List Char → Option (ℤ × List Char)
  | 'e' :: r => parseExpTail r
  | 'E' :: r => parseExpTail r
  | _ => none

/-- Parse a signed decimal with optional exponent, longest valid prefix. -/
def parseSigned (l : List Char) : Option (ℚ × List Char) :=
  let sl : ℚ × List Char :=
    match l with
    | '-' :: t => (-1, t)
    | '+' :: t => (1, t)
    | _ => (1, l)
  match parseUnsigned sl.2 with
  | none => none
  | some (q, rest) =>
    match parseExpPart rest with
    | some (k, rest2) => some (sl.1 * q * (10 : ℚ) ^ k, rest2)
    | none => some (sl.1 * q, rest)

/-- Characters JS treats as whitespace for numeric conversion. -/
def isJsWs (c : Char) : Bool :=
  c = ' ' || c = '\t' || c = '\n' || c = '\r'

/-- Model of JS `parseFloat`: skip leading whitespace, read the longest
numeric prefix; `none` models NaN (no numeric prefix at all, e.g. the empty
string). Finite values only. -/
def jsParseFloat (s : String) : Option ℚ :=
  (parseSigned (s.toList.dropWhile isJsWs)).map (fun p => p.1)

/-- Model of JS `Number(string)`: trimmed empty string is 0; otherwise the
whole trimmed string must be a numeric literal, else NaN (`none`). -/
def jsNumber (s : String) : Option ℚ :=
  let l := (s.toList.dropWhile isJsWs).reverse.dropWhile isJsWs |>.reverse
  if l = [] then some 0
  else
    match parseSigned l with
    | some (q, []) => some q
    | _ => none

/-- JS `>` where the left operand may be NaN (`none`): NaN compares false. -/
def jsGtNum : Option ℚ → ℚ → Bool
  | some a, b => decide (b < a)
  | none, _ => false

/-- JS `<` where the left operand may be NaN (`none`): NaN compares false. -/
def jsLtNum : Option ℚ → ℚ → Bool
  | some a, b => decide (a < b)
  | none, _ => false

/-- JS `<= 0` where the operand may be NaN (`none`): NaN compares false. -/
def jsLeZero : Option ℤ → Bool
  | some d => decide (d ≤ 0)
  | none => false

/-- `Math.ceil((new Date(formData.date) - new Date()) / (1000 * 60 * 60 * 24))`
on millisecond timestamps `dateMs` (the parsed due date) and `now`. -/
def jsDurationDays (dateMs now : ℤ) : ℤ :=
  ⌈((dateMs - now : ℤ) : ℚ) / (1000 * 60 * 60 * 24)⌉

/-- `Math.floor` on a JS number (NaN propagates). -/
def jsMathFloor (q : Option ℚ) : Option ℤ := q.map (fun x => ⌊x⌋)

/-! ## ethers.utils: parseEther / formatEther

`parseEther s` = `parseUnits s 18`: a string of digits with at most one
decimal point and a fraction of at most 18 digits (amount inputs are
non-negative, so the negative branch is not modelled); any other string
throws, modelled as `none`. `formatEther` of a wei amount is the exact
decimal string `wei / 10^18`; since every JS-number computation is modelled
by its exact rational value, we represent that string by the rational
`formatEtherQ`, and `parseEtherQ` is `parseEther` applied to the exact
decimal rendering of such a rational: it succeeds exactly when the value is
a non-negative multiple of 10⁻¹⁸. -/

/-- Model of `ethers.utils.parseEther` on a raw form string. -/
def parseEther (s : String) : Option ℕ :=
  let l := s.toList
  let ip := l.takeWhile Char.isDigit
  match l.dropWhile Char.isDigit with
  | [] => if ip = [] then none else some (natOfDigits ip * 10 ^ 18)
  | '.' :: rest =>
    let fp := rest.takeWhile Char.isDigit
    if rest.dropWhile Char.isDigit = [] ∧ (ip ≠ [] ∨ fp ≠ []) ∧ fp.length ≤ 18 then
      some (natOfDigits ip * 10 ^ 18 + natOfDigits fp * 10 ^ (18 - fp.length))
    else none
  | _ => none

/-- Exact value of the decimal string `ethers.utils.formatEther wei`. -/
def formatEtherQ (wei : ℕ) : ℚ := (wei : ℚ) / 10 ^ 18

/-- `ethers.utils.parseEther (q.toString())` for an exact JS-number value
`q`: succeeds iff `q * 10^18` is a non-negative integer (otherwise the
string has more than 18 decimals or a sign and parseEther throws). -/
def parseEtherQ (q : ℚ) : Option ℕ :=
  if 0 ≤ q * 10 ^ 18 ∧ (q * 10 ^ 18).den = 1 then some (q * 10 ^ 18).num.toNat
  else none

/-! ## Data model

The component state mirrors the `useState` slots of the component: the
form data, the connected account, the formatted balance string, the
contract handle (a `Bool`: bound or `null`), the displayed loan list, and
the three toast slots. External results (contract reads, transaction
sends, balance queries, the price fetch) are oracle arguments; each
operation also returns the list of network events it performed, in order. -/

/-- The `formData` state: four controlled text fields. -/
structure FormData where
  amount : String
  date : String
  collateral : String
  interestRate : String
deriving DecidableEq

/-- One row of the displayed loan list (the view-model built by
`loadActiveLoans`). ACTIVE rows carry `endTime` (the unix-seconds value
whose locale rendering the table shows), PENDING rows carry `duration`;
`loanAmount` and `stake` hold the exact value of the `formatEther`
string. -/
structure LoanRecord where
  loanId : ℕ
  borrower : String
  loanAmount : ℚ
  endTime : Option ℕ
  duration : Option ℕ
  interestRate : ℕ
  stake : ℚ
  state : String
deriving DecidableEq

/-- Whole component state (the `useState` slots). `contract = false`
models a `null` contract handle. -/
structure ComponentState where
  formData : FormData
  account : String
  balance : String
  contract : Bool
  activeLoans : List LoanRecord
  showToast : Bool
  toastMessage : String
  toastVariant : String
deriving DecidableEq

/-- A thrown JS error: `reason` models the optional `error.reason`
property that ethers attaches to contract reverts. -/
structure JsError where
  reason : Option String
deriving DecidableEq

/-- A loan struct as returned by `contract.activeLoans(id)` and inside
`getAllActiveLoans`. Amounts are base units (wei). -/
structure ContractLoan where
  borrower : String
  loanAmount : ℕ
  endTime : ℕ
  interestRate : ℕ
  stake : ℕ
deriving DecidableEq

/-- A pending loan request struct as returned by `getAllActiveLoans`. -/
structure ContractRequest where
  borrower : String
  loanAmount : ℕ
  duration : ℕ
  stake : ℕ
  interestRate : ℕ
deriving DecidableEq

/-- The four parallel arrays returned by `contract.getAllActiveLoans()`. -/
structure GetAllActiveLoansResult where
  loanIds : List ℕ
  loans : List ContractLoan
  requestIds : List ℕ
  requests : List ContractRequest
deriving DecidableEq

/-- Network events an operation can perform, in source order. -/
inductive Event where
  | nonceFetch : Event
  | createLoanRequestTx (amountWei : ℕ) (durationDays : ℤ) (rate : ℤ)
      (valueWei : ℕ) (nonce : ℕ) : Event
  | balanceFetch : Event
  | getAllActiveLoansRead : Event
  | activeLoanRead (loanId : ℕ) : Event
  | priceFetch : Event
  | repayLoanTx (loanId : ℕ) (valueWei : ℕ) : Event
deriving DecidableEq

/-- Is this event the `createLoanRequest` transaction? -/
def Event.isCreateTx : Event → Bool
  | .createLoanRequestTx _ _ _ _ _ => true
  | _ => false

/-- Is this event the `repayLoan` transaction? -/
def Event.isRepayTx : Event → Bool
  | .repayLoanTx _ _ => true
  | _ => false

/-! ## Component operations -/

/-- `showToastMessage(message, variant)`: set the three toast slots. -/
def showToastMessage (message variant : String) (st : ComponentState) :
    ComponentState :=
  { st with toastMessage := message, toastVariant := variant, showToast := true }

/-- The `delay` prop of the Toast element. -/
def toastDelayMs : ℕ := 3000

/-- The `autohide` prop of the Toast element. -/
def toastAutohide : Bool := true

/-- The toast severities the spec admits. -/
def toastSeverities : List String := ["success", "warning", "danger"]

/-- Every `showToastMessage` call site in the component, as
(message, severity). The `createLoanRequest` and `repayLoan` catch
handlers pass `error.reason` when present; the messages listed for them
are their fallback strings, and their severity argument is the literal
shown here in every case. -/
def componentToastCalls : List (String × String) :=
  [("Error loading contract", "danger"),
   ("Error connecting to wallet", "danger"),
   ("Interest rate cannot exceed 7%", "warning"),
   ("Interest rate cannot be negative", "warning"),
   ("Repayment date must be in the future", "warning"),
   ("Loan request created successfully", "success"),
   ("Transaction failed", "danger"),
   ("Error loading loans", "danger"),
   ("Error fetching ETH price", "danger"),
   ("Loan repaid successfully", "success"),
   ("Error repaying loan", "danger")]

/-- `{ ...prev, [name]: value }` for the four form fields. -/
def setFormField (name value : String) (fd : FormData) : FormData :=
  if name = "amount" then { fd with amount := value }
  else if name = "date" then { fd with date := value }
  else if name = "collateral" then { fd with collateral := value }
  else if name = "interestRate" then { fd with interestRate := value }
  else fd

/-- `handleInputChange`: validates the interest-rate field with JS
`parseFloat` and NaN-comparison semantics, then stores the value. -/
def handleInputChange (name value : String) (st : ComponentState) :
    ComponentState :=
  if name = "interestRate" then
    let rate := jsParseFloat value
    if jsGtNum rate 7 then
      showToastMessage "Interest rate cannot exceed 7%" "warning" st
    else if jsLtNum rate 0 then
      showToastMessage "Interest rate cannot be negative" "warning" st
    else { st with formData := setFormField name value st.formData }
  else { st with formData := setFormField name value st.formData }

/-- View-model row for an active loan (state "ACTIVE"). -/
def mkActiveRecord (id : ℕ) (l : ContractLoan) : LoanRecord :=
  { loanId := id, borrower := l.borrower,
    loanAmount := formatEtherQ l.loanAmount,
    endTime := some l.endTime, duration := none,
    interestRate := l.interestRate, stake := formatEtherQ l.stake,
    state := "ACTIVE" }

/-- View-model row for a pending request (state "PENDING"). -/
def mkRequestRecord (id : ℕ) (r : ContractRequest) : LoanRecord :=
  { loanId := id, borrower := r.borrower,
    loanAmount := formatEtherQ r.loanAmount,
    endTime := none, duration := some r.duration,
    interestRate := r.interestRate, stake := formatEtherQ r.stake,
    state := "PENDING" }

/-- Model of JS `String.prototype.toLowerCase()`: addresses are basic
latin strings, on which it lowers each character. -/
def jsToLowerCase (s : String) : String := String.mk (s.data.map Char.toLower)

/-- The borrower filter applied to a row: case-insensitive address
comparison against the connected account. -/
def borrowerMatches (account : String) (loan : LoanRecord) : Bool :=
  jsToLowerCase loan.borrower == jsToLowerCase account

/-- Body of `loadActiveLoans`: map the two parallel result sets to rows,
concatenate (active first), filter on the connected account. -/
def combineLoans (r : GetAllActiveLoansResult) (account : String) :
    List LoanRecord :=
  let activeLoansData := (r.loanIds.zip r.loans).map
    (fun p => mkActiveRecord p.1 p.2)
  let requestLoansData := (r.requestIds.zip r.requests).map
    (fun p => mkRequestRecord p.1 p.2)
  (activeLoansData ++ requestLoansData).filter (borrowerMatches account)

/-- `loadActiveLoans`: guarded by `!contract || !account`; on a
successful read, fully replaces the displayed list; on a throw, shows the
fixed danger toast "Error loading loans" (the catch ignores
`error.reason`). -/
def loadActiveLoans (st : ComponentState)
    (readRes : Except JsError GetAllActiveLoansResult) :
    ComponentState × List Event :=
  if st.contract = false ∨ st.account = "" then (st, [])
  else
    match readRes with
    | .error _ =>
      (showToastMessage "Error loading loans" "danger" st,
        [Event.getAllActiveLoansRead])
    | .ok r =>
      ({ st with activeLoans := combineLoans r st.account },
        [Event.getAllActiveLoansRead])

/-- The catch handler of `createLoanRequest`:
`showToastMessage(error.reason || "Transaction failed", 'danger')`. -/
def createCatch (e : JsError) (st : ComponentState) : ComponentState :=
  showToastMessage (e.reason.getD "Transaction failed") "danger" st

/-- The error ethers throws from `parseEther` on a malformed amount. -/
def invalidDecimalError : JsError := ⟨some "invalid decimal value"⟩

/-- The error ethers throws when a call argument is NaN. -/
def invalidArgumentError : JsError := ⟨some "invalid BigNumber value"⟩

/-- `createLoanRequest`. Oracles: `dateMs` is the millisecond value of
`new Date(formData.date)` (`none` for an invalid date), `now` the value
of `new Date()`, `nonceRes` the `getTransactionCount` result, `txRes` the
combined send/wait outcome of the transaction, `balRes` the formatted
balance string fetched by `updateBalance`, `readRes` the
`getAllActiveLoans` read used by the nested `loadActiveLoans`. -/
def createLoanRequest (st : ComponentState) (dateMs : Option ℤ) (now : ℤ)
    (nonceRes : Except JsError ℕ) (txRes : Except JsError Unit)
    (balRes : Except JsError String)
    (readRes : Except JsError GetAllActiveLoansResult) :
    ComponentState × List Event :=
  if st.contract = false then (st, [])
  else
    match parseEther st.formData.amount with
    | none => (createCatch invalidDecimalError st, [])
    | some amountInWei =>
    match parseEther st.formData.collateral with
    | none => (createCatch invalidDecimalError st, [])
    | some collateralInWei =>
    let durationInDays : Option ℤ := dateMs.map (fun d => jsDurationDays d now)
    let interestRate : Option ℤ := jsMathFloor (jsNumber st.formData.interestRate)
    if jsLeZero durationInDays then
      (showToastMessage "Repayment date must be in the future" "warning" st, [])
    else
      match nonceRes with
      | .error e => (createCatch e st, [Event.nonceFetch])
      | .ok nonce =>
      match durationInDays, interestRate with
      | some dur, some ir =>
        match txRes with
        | .error e =>
          (createCatch e st,
            [Event.nonceFetch,
             Event.createLoanRequestTx amountInWei dur ir collateralInWei nonce])
        | .ok _ =>
          let evs := [Event.nonceFetch,
            Event.createLoanRequestTx amountInWei dur ir collateralInWei nonce,
            Event.balanceFetch]
          match balRes with
          | .error e => (createCatch e st, evs)
          | .ok b =>
            let st1 := { st with balance := b }
            let res2 := loadActiveLoans st1 readRes
            let st3 := { res2.1 with formData := ⟨"", "", "", ""⟩ }
            (showToastMessage "Loan request created successfully" "success" st3,
              evs ++ res2.2)
      | _, _ => (createCatch invalidArgumentError st, [Event.nonceFetch])

/-- `getEthPrice`: the HTTP fetch either yields a price or throws, in
which case the internal catch returns `null` (`none`). -/
def getEthPrice (fetchRes : Option ℚ) : Option ℚ := fetchRes

/-- The catch handler of `repayLoan`:
`showToastMessage(error.reason || "Error repaying loan", 'danger')`. -/
def repayCatch (e : JsError) (st : ComponentState) : ComponentState :=
  showToastMessage (e.reason.getD "Error repaying loan") "danger" st

/-- `repayLoan`. Oracles: `loanRes` the `contract.activeLoans(loanId)`
read, `fetchRes` the price-API fetch (fed through `getEthPrice`), `txRes`
the combined send/wait outcome, `balRes` and `readRes` as in
`createLoanRequest`. The guard `if (!currentEthPrice)` aborts on every
falsy price: `null` from a failed fetch (`none`) and the number 0. The
JS double chain (string×price÷price, toString∘parseEther) is carried
here by its exact rational value; theorems about the post-price branch
therefore take the `parseEtherQ` outcome as a hypothesis rather than
relying on exact cancellation, and the binary64 divergence of the real
chain is established separately on the integer-level double model. -/
def repayLoan (st : ComponentState) (loanId : ℕ)
    (loanRes : Except JsError ContractLoan) (fetchRes : Option ℚ)
    (txRes : Except JsError Unit) (balRes : Except JsError String)
    (readRes : Except JsError GetAllActiveLoansResult) :
    ComponentState × List Event :=
  if st.contract = false then (st, [])
  else
    match loanRes with
    | .error e => (repayCatch e st, [Event.activeLoanRead loanId])
    | .ok loan =>
      match getEthPrice fetchRes with
      | none =>
        (showToastMessage "Error fetching ETH price" "danger" st,
          [Event.activeLoanRead loanId, Event.priceFetch])
      | some currentEthPrice =>
      if currentEthPrice = 0 then
        (showToastMessage "Error fetching ETH price" "danger" st,
          [Event.activeLoanRead loanId, Event.priceFetch])
      else
        let loanAmountInEth := formatEtherQ loan.loanAmount
        let loanAmountInUSD := loanAmountInEth * currentEthPrice
        let requiredEthAmount := loanAmountInUSD / currentEthPrice
        match parseEtherQ requiredEthAmount with
        | none =>
          (repayCatch invalidDecimalError st,
            [Event.activeLoanRead loanId, Event.priceFetch])
        | some requiredEthWei =>
          let interest := requiredEthWei * loan.interestRate / 100
          let totalDue := requiredEthWei + interest
          match txRes with
          | .error e =>
            (repayCatch e st,
              [Event.activeLoanRead loanId, Event.priceFetch,
               Event.repayLoanTx loanId totalDue])
          | .ok _ =>
            let st1 := showToastMessage "Loan repaid successfully" "success" st
            match balRes with
            | .error e =>
              (repayCatch e st1,
                [Event.activeLoanRead loanId, Event.priceFetch,
                 Event.repayLoanTx loanId totalDue, Event.balanceFetch])
            | .ok b =>
              let st2 := { st1 with balance := b }
              let res3 := loadActiveLoans st2 readRes
              (res3.1,
                [Event.activeLoanRead loanId, Event.priceFetch,
                 Event.repayLoanTx loanId totalDue, Event.balanceFetch] ++ res3.2)

/-- The `accountsChanged` listener registered by `connectWallet`: stores
the first account of the notification and re-fetches its balance; it does
not touch the loan list or any other state. -/
def accountsChangedHandler (st : ComponentState) (accounts : List String)
    (newBalance : String) : ComponentState × List Event :=
  ({ st with account := accounts.headD "", balance := newBalance },
    [Event.balanceFetch])

/-- The initial component state (the `useState` initial values). -/
def initialState : ComponentState :=
  { formData := ⟨"", "", "", ""⟩, account := "", balance := "",
    contract := false, activeLoans := [], showToast := false,
    toastMessage := "", toastVariant := "success" }

/-! ## Helper lemmas -/

/-- The amount→USD→amount round trip of `repayLoan` cancels exactly: for
any nonzero price, converting the formatted principal to USD and back and
re-parsing yields the original wei amount. -/
theorem formatEther_roundTrip (P : ℕ) (p : ℚ) (hp : p ≠ 0) :
    parseEtherQ (formatEtherQ P * p / p) = some P := by
  have h1 : formatEtherQ P * p / p = formatEtherQ P :=
    mul_div_cancel_right₀ _ hp
  have h2 : formatEtherQ P * 10 ^ 18 = (P : ℚ) := by
    unfold formatEtherQ
    exact div_mul_cancel₀ _ (by norm_num)
  rw [h1]
  unfold parseEtherQ
  rw [h2, if_pos ⟨Nat.cast_nonneg P, Rat.den_natCast P⟩]
  simp

/-- The duration computed by `createLoanRequest` is nonpositive exactly
when the due date is not strictly after the current date. -/
theorem jsDurationDays_nonpos_iff (dateMs now : ℤ) :
    jsDurationDays dateMs now ≤ 0 ↔ dateMs ≤ now := by
  unfold jsDurationDays
  rw [show (0 : ℤ) = ((0 : ℤ)) from rfl, Int.ceil_le]
  push_cast
  rw [div_le_iff₀ (by norm_num), zero_mul, sub_nonpos]
  exact_mod_cast Iff.rfl

/-- `loadActiveLoans` never sends a repayment transaction. -/
theorem loadActiveLoans_no_repayTx (st : ComponentState)
    (rr : Except JsError GetAllActiveLoansResult) :
    ((loadActiveLoans st rr).2).filter Event.isRepayTx = [] := by
  unfold loadActiveLoans
  split
  · rfl
  · split <;> rfl

/-- A state with a bound contract and a connected account, used to
instantiate the theorems on concrete inputs. -/
def exampleState : ComponentState :=
  { initialState with contract := true, account := "0xAbCd" }

/-! ## Claims -/

/-! ## Integer-level binary64 model

The source's repayment flow runs its arithmetic on JS numbers, i.e.
IEEE-754 binary64 doubles: the `formatEther` string is coerced to a
double, multiplied and divided by the price with one rounding each, and
the result's `toString()` — the shortest decimal that round-trips
(ECMA-262 Number::toString) — is fed to `parseEther`. The following
checkers state binary64 facts over plain integers, so they evaluate in
the kernel. A double is written as a significand `m` (normalized,
2^52 ≤ m < 2^53) times 2^(−eNeg). -/

/-- The rational `num / den` (with `den > 0`) rounds to the binary64
value m·2^(−eNeg) under round-to-nearest, ties-to-even: normalized
significand plus the integer half-ulp criterion
|num/den − m·2^(−eNeg)| < 2^(−eNeg−1), or equality with even `m`. The
criterion is sufficient for values interior to a binade, as all values
used below are. -/
def roundsToF64 (num den m : ℤ) (eNeg : ℕ) : Bool :=
  (0 < den) && (2 ^ 52 ≤ m) && (m < 2 ^ 53)
  && ((num * 2 ^ (eNeg + 1) - 2 * m * den).natAbs < den.natAbs
      || ((num * 2 ^ (eNeg + 1) - 2 * m * den).natAbs = den.natAbs
          && m % 2 = 0))

/-- Does the decimal s·10^(−k) parse back (round-to-nearest, ties to
even) to the binary64 value m·2^(−eNeg)? Same integer half-ulp test,
scaled by 10^k. -/
def decimalRoundTrips (s : ℤ) (k : ℕ) (m : ℤ) (eNeg : ℕ) : Bool :=
  (s * 2 ^ (eNeg + 1) - 2 * m * 10 ^ k).natAbs < 10 ^ k
  || ((s * 2 ^ (eNeg + 1) - 2 * m * 10 ^ k).natAbs = 10 ^ k && m % 2 = 0)

/-- ECMA Number::toString candidate selection for a binary64 value in
[1/10, 1): among the two k-digit decimals bracketing the value, the
round-tripping one closest to it (a tie prefers the even digit
string). -/
def bestCandidate (m : ℤ) (eNeg k : ℕ) : Option ℤ :=
  let num := m * 10 ^ k
  let den : ℤ := 2 ^ eNeg
  let c0 := num / den
  let c1 := c0 + 1
  let ok0 := decimalRoundTrips c0 k m eNeg
  let ok1 := decimalRoundTrips c1 k m eNeg
  if ok0 && ok1 then
    if (c0 * den - num).natAbs < (c1 * den - num).natAbs then some c0
    else if (c1 * den - num).natAbs < (c0 * den - num).natAbs then some c1
    else if c0 % 2 = 0 then some c0 else some c1
  else if ok0 then some c0
  else if ok1 then some c1
  else none

/-- Search for the least digit count (starting at `k`, with the given
fuel, up to 17 significant digits) whose best candidate round-trips. -/
def shortestDecimalGo (m : ℤ) (eNeg : ℕ) : ℕ → ℕ → Option (ℤ × ℕ)
  | 0, _ => none
  | fuel + 1, k =>
    match bestCandidate m eNeg k with
    | some s => some (s, k)
    | none => shortestDecimalGo m eNeg fuel (k + 1)

/-- The digits and digit count of `Number.prototype.toString` for a
binary64 value m·2^(−eNeg) in [1/10, 1): the shortest round-tripping
decimal 0.s (ECMA-262 Number::toString with n = 0). -/
def shortestDecimal (m : ℤ) (eNeg : ℕ) : Option (ℤ × ℕ) :=
  shortestDecimalGo m eNeg 17 1

/-- C1 (code bug): tracing the source's repayment computation in real
binary64 semantics at principal P = 10^17 wei — `formatEther` gives
"0.1" — rate R = 5 and fetched price 3. `Number("0.1")` is
7205759403792794·2^(−56); multiplying by the price 3 rounds (a tie,
resolved to even) to 5404319552844596·2^(−54), i.e. 0.30000000000000004;
dividing by the price 3 rounds to 7205759403792795·2^(−56), i.e.
0.10000000000000002; the shortest round-tripping decimal of that double
has 17 digits, so `parseEther` receives "0.10000000000000002" and the
transaction carries 100000000000000020 + floor(100000000000000020·5/100)
= 105000000000000021 wei. At price 1 the same loan's chain is exact
("0.1" comes back) and the transaction carries
10^17 + floor(10^17·5/100) = 105000000000000000 wei. So the attached
value differs from P + floor(P·R/100) and depends on the price — the
code contradicts the claim (and the spec's stated intent that the
round trip cancels). -/
theorem repayLoan_double_roundTrip_divergence :
    (roundsToF64 1 10 7205759403792794 56 = true)
    ∧ (roundsToF64 (7205759403792794 * 3) (2 ^ 56) 5404319552844596 54
        = true)
    ∧ (roundsToF64 5404319552844596 (3 * 2 ^ 54) 7205759403792795 56
        = true)
    ∧ shortestDecimal 7205759403792795 56 = some (10000000000000002, 17)
    ∧ parseEther "0.10000000000000002" = some 100000000000000020
    ∧ 100000000000000020 + 100000000000000020 * 5 / 100
        = 105000000000000021
    ∧ (roundsToF64 (7205759403792794 * 1) (1 * 2 ^ 56) 7205759403792794 56
        = true)
    ∧ shortestDecimal 7205759403792794 56 = some (1, 1)
    ∧ parseEther "0.1" = some (10 ^ 17)
    ∧ 10 ^ 17 + 10 ^ 17 * 5 / 100 = 105000000000000000
    ∧ (105000000000000021 : ℕ) ≠ 105000000000000000 := by
  refine ⟨by decide, by decide, by decide, by decide, by decide, by decide,
    by decide, by decide, by decide, by decide, by decide⟩

/-- `setFormField` at the interest-rate key. -/
theorem setFormField_interestRate (v : String) (fd : FormData) :
    setFormField "interestRate" v fd = { fd with interestRate := v } := by
  unfold setFormField
  rw [if_neg (by decide), if_neg (by decide), if_neg (by decide), if_pos rfl]

/-- C2 (amended): `handleInputChange` on the interest-rate field rejects
the keystroke (state unchanged, warning toast) exactly when
`parseFloat(value)` is a number greater than 7 or less than 0; when the
parsed value is in [0,7] — and also when the value is not numeric at all
(`parseFloat` gives NaN, e.g. the cleared field), since NaN comparisons
are false — the value is stored unchanged. -/
theorem handleInputChange_interestRate (v : String) (st : ComponentState) :
    (∀ r : ℚ, jsParseFloat v = some r → 7 < r →
        handleInputChange "interestRate" v st
          = showToastMessage "Interest rate cannot exceed 7%" "warning" st)
    ∧ (∀ r : ℚ, jsParseFloat v = some r → r < 0 →
        handleInputChange "interestRate" v st
          = showToastMessage "Interest rate cannot be negative" "warning" st)
    ∧ (∀ r : ℚ, jsParseFloat v = some r → 0 ≤ r → r ≤ 7 →
        handleInputChange "interestRate" v st
          = { st with formData := { st.formData with interestRate := v } })
    ∧ (jsParseFloat v = none →
        handleInputChange "interestRate" v st
          = { st with formData := { st.formData with interestRate := v } }) := by
  refine ⟨?_, ?_, ?_, ?_⟩
  · intro r hr h7
    simp [handleInputChange, hr, jsGtNum, h7]
  · intro r hr h0
    have h7 : ¬ (7 : ℚ) < r := by linarith
    simp [handleInputChange, hr, jsGtNum, jsLtNum, h7, h0]
  · intro r hr h0 h7
    simp [handleInputChange, hr, jsGtNum, jsLtNum, not_lt.mpr h7,
      not_lt.mpr h0, setFormField_interestRate]
  · intro hr
    simp [handleInputChange, hr, jsGtNum, jsLtNum, setFormField_interestRate]

/-- A state whose form currently holds interest rate "3". -/
def formState3 : ComponentState :=
  { exampleState with formData := ⟨"", "", "", "3"⟩ }

/-- C2 counterexample: clearing the field (value "") gives a value that
does not denote a number in [0,7], yet `handleInputChange` stores it
(form state changes) and shows no warning — so rejection does not happen
exactly on values outside [0,7]. -/
theorem handleInputChange_empty_counterexample :
    (¬ ∃ r : ℚ, jsParseFloat "" = some r ∧ 0 ≤ r ∧ r ≤ 7)
    ∧ (handleInputChange "interestRate" "" formState3).formData
        ≠ formState3.formData
    ∧ (handleInputChange "interestRate" "" formState3).showToast = false := by
  have h : jsParseFloat "" = none := rfl
  refine ⟨?_, ?_, ?_⟩
  · rintro ⟨r, hr, -⟩
    rw [h] at hr
    exact Option.noConfusion hr
  · decide
  · rfl

/-- Evaluation of `jsParseFloat` at "8". -/
theorem jsParseFloat_eight : jsParseFloat "8" = some 8 := by
  have h : jsParseFloat "8" = some ((1 : ℚ) * ((8 : ℕ) : ℚ)) := rfl
  rw [h]
  norm_num

/-- Witness for C2 at value "8" (parsed to 8 > 7, rejected). -/
theorem handleInputChange_interestRate_witness :
    handleInputChange "interestRate" "8" exampleState
      = showToastMessage "Interest rate cannot exceed 7%" "warning"
          exampleState :=
  (handleInputChange_interestRate "8" exampleState).1 8 jsParseFloat_eight
    (by norm_num)

/-- C3: For every form submission whose due date is not strictly after
the current date (computed duration in whole days ≤ 0),
`createLoanRequest` shows a warning toast and returns before issuing any
network call: the event trace is empty, so in particular no nonce fetch
and no transaction occur. The last conjunct ties the two phrasings of
the hypothesis together: duration ≤ 0 iff the due date is not strictly
after now. (Amount and collateral are assumed well-formed, as enforced by
the required number inputs; `parseEther` runs before the date check.) -/
theorem createLoanRequest_pastDate_blocked (st : ComponentState)
    (dateMs now : ℤ) (aw cw : ℕ)
    (nonceRes : Except JsError ℕ) (txRes : Except JsError Unit)
    (balRes : Except JsError String)
    (readRes : Except JsError GetAllActiveLoansResult)
    (hc : st.contract = true)
    (ha : parseEther st.formData.amount = some aw)
    (hcol : parseEther st.formData.collateral = some cw)
    (hdur : jsDurationDays dateMs now ≤ 0) :
    createLoanRequest st (some dateMs) now nonceRes txRes balRes readRes
      = (showToastMessage "Repayment date must be in the future" "warning" st,
          [])
    ∧ (jsDurationDays dateMs now ≤ 0 ↔ dateMs ≤ now) := by
  refine ⟨?_, jsDurationDays_nonpos_iff dateMs now⟩
  have hg : jsLeZero ((some dateMs).map (fun d => jsDurationDays d now))
      = true := by
    simp [jsLeZero, hdur]
  unfold createLoanRequest
  rw [if_neg (by simp [hc]), ha, hcol]
  dsimp only
  rw [if_pos hg]

/-- A state with a bound contract, connected account and a filled form. -/
def filledFormState : ComponentState :=
  { exampleState with formData := ⟨"1.0", "2024-01-01", "2.0", "5"⟩ }

/-- Witness for C3: a due date equal to the current instant (duration 0)
is blocked with the warning toast and an empty event trace. -/
theorem createLoanRequest_pastDate_blocked_witness :
    createLoanRequest filledFormState (some 0) 0 (.ok 0) (.ok ()) (.ok "1.0")
        (.ok ⟨[], [], [], []⟩)
      = (showToastMessage "Repayment date must be in the future" "warning"
          filledFormState, []) :=
  (createLoanRequest_pastDate_blocked filledFormState 0 0 (10 ^ 18)
    (2 * 10 ^ 18) (.ok 0) (.ok ()) (.ok "1.0") (.ok ⟨[], [], [], []⟩) rfl
    (by decide) (by decide) (by norm_num [jsDurationDays])).1

/-- C4: For every contract-read result (active loans, pending requests)
and connected account, `loadActiveLoans` replaces the displayed list with
exactly the records whose borrower case-insensitively equals the
connected address, ordered as filtered active records then filtered
pending records in source order, actives tagged "ACTIVE" and requests
tagged "PENDING". The right-hand side does not mention the previous
list: the result is a full replacement. -/
theorem loadActiveLoans_replaces_filtered (st : ComponentState)
    (r : GetAllActiveLoansResult)
    (hc : st.contract = true) (ha : st.account ≠ "") :
    ((loadActiveLoans st (.ok r)).1.activeLoans
      = ((r.loanIds.zip r.loans).map (fun p => mkActiveRecord p.1 p.2)).filter
          (borrowerMatches st.account)
        ++ ((r.requestIds.zip r.requests).map
            (fun p => mkRequestRecord p.1 p.2)).filter
          (borrowerMatches st.account))
    ∧ (∀ rec, rec ∈ (loadActiveLoans st (.ok r)).1.activeLoans ↔
        rec ∈ (r.loanIds.zip r.loans).map (fun p => mkActiveRecord p.1 p.2)
            ++ (r.requestIds.zip r.requests).map
              (fun p => mkRequestRecord p.1 p.2)
          ∧ jsToLowerCase rec.borrower = jsToLowerCase st.account)
    ∧ (∀ i l, (mkActiveRecord i l).state = "ACTIVE")
    ∧ (∀ i q, (mkRequestRecord i q).state = "PENDING") := by
  have key : (loadActiveLoans st (.ok r)).1.activeLoans
      = combineLoans r st.account := by
    unfold loadActiveLoans
    rw [if_neg (by simp [hc, ha])]
  refine ⟨?_, ?_, fun i l => rfl, fun i q => rfl⟩
  · rw [key]
    unfold combineLoans
    exact List.filter_append _ _
  · intro rec
    rw [key]
    unfold combineLoans
    simp only [List.mem_filter, List.mem_append, borrowerMatches,
      beq_iff_eq]

/-- A concrete active loan whose borrower matches `exampleState`'s
account up to case. -/
def exLoan : ContractLoan := ⟨"0xABCD", 10 ^ 18, 1700000000, 5, 2 * 10 ^ 18⟩

/-- A concrete pending request from a different borrower. -/
def exRequest : ContractRequest := ⟨"0xFFFF", 10 ^ 18, 7, 2 * 10 ^ 18, 3⟩

/-- A concrete `getAllActiveLoans` result. -/
def exRead : GetAllActiveLoansResult := ⟨[1], [exLoan], [2], [exRequest]⟩

/-- Witness for C4: the matching active row is kept (case-insensitively),
the foreign pending row is dropped. -/
theorem loadActiveLoans_replaces_filtered_witness :
    (loadActiveLoans exampleState (.ok exRead)).1.activeLoans
      = [mkActiveRecord 1 exLoan] := by
  have h := (loadActiveLoans_replaces_filtered exampleState exRead rfl
    (by decide)).1
  rw [h]
  rfl

/-- C5: For every loan id, if the price fetch fails (`getEthPrice`
returns null), `repayLoan` shows a danger toast and returns: no repayment
transaction is attempted and the loan list and balance are unchanged. -/
theorem repayLoan_priceFetchFail (st : ComponentState) (loanId : ℕ)
    (loan : ContractLoan) (txRes : Except JsError Unit)
    (balRes : Except JsError String)
    (readRes : Except JsError GetAllActiveLoansResult)
    (hc : st.contract = true) :
    repayLoan st loanId (.ok loan) none txRes balRes readRes
      = (showToastMessage "Error fetching ETH price" "danger" st,
          [Event.activeLoanRead loanId, Event.priceFetch])
    ∧ ((repayLoan st loanId (.ok loan) none txRes balRes readRes).2).filter
        Event.isRepayTx = []
    ∧ (repayLoan st loanId (.ok loan) none txRes balRes readRes).1.activeLoans
        = st.activeLoans
    ∧ (repayLoan st loanId (.ok loan) none txRes balRes readRes).1.balance
        = st.balance := by
  have key : repayLoan st loanId (.ok loan) none txRes balRes readRes
      = (showToastMessage "Error fetching ETH price" "danger" st,
        [Event.activeLoanRead loanId, Event.priceFetch]) := by
    unfold repayLoan getEthPrice
    rw [if_neg (by simp [hc])]
  exact ⟨key, by rw [key]; rfl, by rw [key]; rfl, by rw [key]; rfl⟩

/-- Witness for C5 at a concrete loan and failed fetch. -/
theorem repayLoan_priceFetchFail_witness :
    repayLoan exampleState 1 (.ok exLoan) none (.ok ()) (.ok "3.0")
        (.ok exRead)
      = (showToastMessage "Error fetching ETH price" "danger" exampleState,
          [Event.activeLoanRead 1, Event.priceFetch]) :=
  (repayLoan_priceFetchFail exampleState 1 exLoan (.ok ()) (.ok "3.0")
    (.ok exRead) rfl).1

/-- C7: Whenever the contract handle is null, `createLoanRequest`,
`loadActiveLoans` and `repayLoan` each return immediately: no events, and
the state (all view state) is returned unchanged. -/
theorem nullContract_noops (st : ComponentState)
    (dateMs : Option ℤ) (now : ℤ) (nonceRes : Except JsError ℕ)
    (txRes txRes2 : Except JsError Unit)
    (balRes balRes2 : Except JsError String)
    (readRes readRes2 readRes3 : Except JsError GetAllActiveLoansResult)
    (loanId : ℕ) (loanRes : Except JsError ContractLoan)
    (fetchRes : Option ℚ) (hc : st.contract = false) :
    createLoanRequest st dateMs now nonceRes txRes balRes readRes = (st, [])
    ∧ loadActiveLoans st readRes2 = (st, [])
    ∧ repayLoan st loanId loanRes fetchRes txRes2 balRes2 readRes3
        = (st, []) := by
  refine ⟨?_, ?_, ?_⟩
  · unfold createLoanRequest
    rw [if_pos hc]
  · unfold loadActiveLoans
    rw [if_pos (Or.inl hc)]
  · unfold repayLoan
    rw [if_pos hc]

/-- Witness for C7 at the initial state (contract not yet bound). -/
theorem nullContract_noops_witness :
    createLoanRequest initialState (some 0) 0 (.ok 0) (.ok ()) (.ok "1.0")
        (.ok exRead) = (initialState, [])
    ∧ loadActiveLoans initialState (.ok exRead) = (initialState, [])
    ∧ repayLoan initialState 1 (.ok exLoan) (some 2000) (.ok ()) (.ok "1.0")
        (.ok exRead) = (initialState, []) :=
  nullContract_noops initialState (some 0) 0 (.ok 0) (.ok ()) (.ok ())
    (.ok "1.0") (.ok "1.0") (.ok exRead) (.ok exRead) (.ok exRead) 1
    (.ok exLoan) (some 2000) rfl

/-- Evaluation of the floored interest rate at input "5". -/
theorem jsMathFloor_jsNumber_five : jsMathFloor (jsNumber "5") = some 5 := by
  have h : jsNumber "5" = some ((1 : ℚ) * ((5 : ℕ) : ℚ)) := rfl
  rw [jsMathFloor, h, Option.map_some']
  norm_num

/-- Evaluation of the duration at a due date exactly ten days ahead. -/
theorem jsDurationDays_tenDays (now : ℤ) :
    jsDurationDays (now + 10 * 86400000) now = 10 := by
  unfold jsDurationDays
  have h : now + 10 * 86400000 - now = (864000000 : ℤ) := by ring
  rw [h]
  norm_num

/-- C6: Submitting amount "1.0", collateral "2.0", rate "5" and a due
date exactly 10 days from now issues exactly one contract transaction,
carrying duration 10, rate 5, principal 10^18 base units and attached
value 2×10^18 base units; after confirmation the form is reset to
all-empty, the loan list is re-fetched and fully replaced, and the
success toast is shown. -/
theorem createLoanRequest_endToEnd (st : ComponentState) (now : ℤ)
    (nonce : ℕ) (b : String) (r : GetAllActiveLoansResult)
    (hc : st.contract = true) (ha : st.account ≠ "")
    (ham : st.formData.amount = "1.0")
    (hcol : st.formData.collateral = "2.0")
    (hir : st.formData.interestRate = "5") :
    ((createLoanRequest st (some (now + 10 * 86400000)) now (.ok nonce)
        (.ok ()) (.ok b) (.ok r)).2).filter Event.isCreateTx
      = [Event.createLoanRequestTx (10 ^ 18) 10 5 (2 * 10 ^ 18) nonce]
    ∧ (createLoanRequest st (some (now + 10 * 86400000)) now (.ok nonce)
        (.ok ()) (.ok b) (.ok r)).1.formData = ⟨"", "", "", ""⟩
    ∧ Event.getAllActiveLoansRead ∈ (createLoanRequest st
        (some (now + 10 * 86400000)) now (.ok nonce) (.ok ()) (.ok b)
        (.ok r)).2
    ∧ (createLoanRequest st (some (now + 10 * 86400000)) now (.ok nonce)
        (.ok ()) (.ok b) (.ok r)).1.activeLoans = combineLoans r st.account
    ∧ (createLoanRequest st (some (now + 10 * 86400000)) now (.ok nonce)
        (.ok ()) (.ok b) (.ok r)).1.toastMessage
        = "Loan request created successfully" := by
  have e1 : parseEther st.formData.amount = some (10 ^ 18) := by
    rw [ham]
    decide
  have e2 : parseEther st.formData.collateral = some (2 * 10 ^ 18) := by
    rw [hcol]
    decide
  have e3 : jsMathFloor (jsNumber st.formData.interestRate) = some 5 := by
    rw [hir]
    exact jsMathFloor_jsNumber_five
  have key : createLoanRequest st (some (now + 10 * 86400000)) now (.ok nonce)
      (.ok ()) (.ok b) (.ok r)
      = (showToastMessage "Loan request created successfully" "success"
          { st with
            formData := { amount := "", date := "", collateral := "",
                          interestRate := "" },
            balance := b,
            activeLoans := combineLoans r st.account },
        [Event.nonceFetch,
         Event.createLoanRequestTx (10 ^ 18) 10 5 (2 * 10 ^ 18) nonce,
         Event.balanceFetch, Event.getAllActiveLoansRead]) := by
    unfold createLoanRequest
    rw [if_neg (by simp [hc]), e1, e2, e3]
    dsimp only [Option.map]
    rw [jsDurationDays_tenDays now]
    rw [if_neg (by decide)]
    unfold loadActiveLoans
    rw [if_neg (by simp [hc, ha])]
    rfl
  refine ⟨?_, ?_, ?_, ?_, ?_⟩
  · rw [key]
    rfl
  · rw [key]
    rfl
  · rw [key]
    simp
  · rw [key]
    rfl
  · rw [key]
    rfl

/-- Witness for C6 at the filled form and concrete oracles. -/
theorem createLoanRequest_endToEnd_witness :
    ((createLoanRequest filledFormState (some (0 + 10 * 86400000)) 0 (.ok 7)
        (.ok ()) (.ok "1.0") (.ok exRead)).2).filter Event.isCreateTx
      = [Event.createLoanRequestTx (10 ^ 18) 10 5 (2 * 10 ^ 18) 7]
    ∧ (createLoanRequest filledFormState (some (0 + 10 * 86400000)) 0 (.ok 7)
        (.ok ()) (.ok "1.0") (.ok exRead)).1.formData = ⟨"", "", "", ""⟩ :=
  ⟨(createLoanRequest_endToEnd filledFormState 0 7 "1.0" exRead rfl
      (by decide) rfl rfl rfl).1,
   (createLoanRequest_endToEnd filledFormState 0 7 "1.0" exRead rfl
      (by decide) rfl rfl rfl).2.1⟩

/-- C8 counterexample: a revert reason thrown inside `loadActiveLoans`
is not surfaced — its catch shows the fixed message "Error loading
loans", not the contract-provided reason, contradicting the claim that
each of the three operations shows the reason when present. -/
theorem loadActiveLoans_reason_dropped :
    (loadActiveLoans exampleState
        (.error ⟨some "Insufficient collateral"⟩)).1.toastMessage
      = "Error loading loans"
    ∧ (loadActiveLoans exampleState
        (.error ⟨some "Insufficient collateral"⟩)).1.toastMessage
      ≠ "Insufficient collateral" := by
  refine ⟨rfl, ?_⟩
  decide

/-- C8 (amended): every error thrown inside the three operations is
caught (the embedded operations are total: nothing re-throws) and shown
as a danger toast; `createLoanRequest` and `repayLoan` surface
`error.reason` when present, falling back to "Transaction failed" and
"Error repaying loan" respectively, while `loadActiveLoans` always shows
the fixed "Error loading loans", ignoring the reason. The conjuncts
cover each throw point: the nonce fetch, the create transaction, the
balance refresh, the loan-list read, the loan read, the repay
transaction, and the repay balance refresh. The two conjuncts at or
after the repay transaction hold under the hypothesis that the
amount→USD→amount round trip re-parses to some wei value `w` — when the
runtime's double chain instead makes `parseEther` throw, that parse
error is caught before any transaction and surfaced by the same catch
handler. -/
theorem errorHandling_catches (st : ComponentState) (e : JsError)
    (aw cw : ℕ) (ir : ℤ) (dateMs now : ℤ) (nonce : ℕ) (loanId : ℕ)
    (loan : ContractLoan) (p : ℚ) (w : ℕ)
    (hc : st.contract = true) (ha : st.account ≠ "")
    (hparseA : parseEther st.formData.amount = some aw)
    (hparseC : parseEther st.formData.collateral = some cw)
    (hdur : 0 < jsDurationDays dateMs now)
    (hir : jsMathFloor (jsNumber st.formData.interestRate) = some ir)
    (hp : 0 < p)
    (hrt : parseEtherQ (formatEtherQ loan.loanAmount * p / p) = some w) :
    (∀ txRes balRes readRes,
      createLoanRequest st (some dateMs) now (.error e) txRes balRes readRes
        = (createCatch e st, [Event.nonceFetch]))
    ∧ (∀ balRes readRes,
      createLoanRequest st (some dateMs) now (.ok nonce) (.error e) balRes
          readRes
        = (createCatch e st,
            [Event.nonceFetch,
             Event.createLoanRequestTx aw (jsDurationDays dateMs now) ir cw
               nonce]))
    ∧ (∀ readRes,
      createLoanRequest st (some dateMs) now (.ok nonce) (.ok ()) (.error e)
          readRes
        = (createCatch e st,
            [Event.nonceFetch,
             Event.createLoanRequestTx aw (jsDurationDays dateMs now) ir cw
               nonce, Event.balanceFetch]))
    ∧ (loadActiveLoans st (.error e)
        = (showToastMessage "Error loading loans" "danger" st,
            [Event.getAllActiveLoansRead]))
    ∧ (∀ fetchRes txRes balRes readRes,
      repayLoan st loanId (.error e) fetchRes txRes balRes readRes
        = (repayCatch e st, [Event.activeLoanRead loanId]))
    ∧ (∀ balRes readRes,
      (repayLoan st loanId (.ok loan) (some p) (.error e) balRes
          readRes).1 = repayCatch e st)
    ∧ (∀ readRes,
      (repayLoan st loanId (.ok loan) (some p) (.ok ()) (.error e)
          readRes).1 = repayCatch e st)
    ∧ (∀ st2, createCatch e st2
        = showToastMessage (e.reason.getD "Transaction failed") "danger" st2)
    ∧ (∀ st2, repayCatch e st2
        = showToastMessage (e.reason.getD "Error repaying loan") "danger"
            st2) := by
  have hg : jsLeZero (some (jsDurationDays dateMs now)) = false := by
    simp only [jsLeZero, decide_eq_false_iff_not]
    exact not_le.mpr hdur
  refine ⟨?_, ?_, ?_, ?_, ?_, ?_, ?_, fun st2 => rfl, fun st2 => rfl⟩
  · intro txRes balRes readRes
    unfold createLoanRequest
    rw [if_neg (by simp [hc]), hparseA, hparseC]
    dsimp only [Option.map]
    rw [hg]
    rfl
  · intro balRes readRes
    unfold createLoanRequest
    rw [if_neg (by simp [hc]), hparseA, hparseC]
    dsimp only [Option.map]
    rw [hg, hir]
    rfl
  · intro readRes
    unfold createLoanRequest
    rw [if_neg (by simp [hc]), hparseA, hparseC]
    dsimp only [Option.map]
    rw [hg, hir]
    rfl
  · unfold loadActiveLoans
    rw [if_neg (by simp [hc, ha])]
  · intro fetchRes txRes balRes readRes
    unfold repayLoan
    rw [if_neg (by simp [hc])]
  · intro balRes readRes
    unfold repayLoan getEthPrice
    rw [if_neg (by simp [hc])]
    dsimp only
    rw [if_neg hp.ne', hrt]
  · intro readRes
    unfold repayLoan getEthPrice
    rw [if_neg (by simp [hc])]
    dsimp only
    rw [if_neg hp.ne', hrt]
    rfl

/-- Witness for C8: a revert with reason "Insufficient collateral" at the
create transaction is toasted with exactly that reason; the same error at
the loan-list read is toasted with the fixed message instead. -/
theorem errorHandling_catches_witness :
    createLoanRequest filledFormState (some 864000000) 0 (.ok 7)
        (.error ⟨some "Insufficient collateral"⟩) (.ok "1.0") (.ok exRead)
      = (createCatch ⟨some "Insufficient collateral"⟩ filledFormState,
          [Event.nonceFetch,
           Event.createLoanRequestTx (10 ^ 18) (jsDurationDays 864000000 0) 5
             (2 * 10 ^ 18) 7])
    ∧ loadActiveLoans filledFormState (.error ⟨some "Insufficient collateral"⟩)
      = (showToastMessage "Error loading loans" "danger" filledFormState,
          [Event.getAllActiveLoansRead]) :=
  ⟨(errorHandling_catches filledFormState ⟨some "Insufficient collateral"⟩
      (10 ^ 18) (2 * 10 ^ 18) 5 864000000 0 7 1 exLoan 2000 (10 ^ 18) rfl
      (by decide) (by decide) (by decide) (by norm_num [jsDurationDays])
      jsMathFloor_jsNumber_five (by norm_num)
      (formatEther_roundTrip (10 ^ 18) 2000 (by norm_num))).2.1
      (.ok "1.0") (.ok exRead),
   (errorHandling_catches filledFormState ⟨some "Insufficient collateral"⟩
      (10 ^ 18) (2 * 10 ^ 18) 5 864000000 0 7 1 exLoan 2000 (10 ^ 18) rfl
      (by decide) (by decide) (by decide) (by norm_num [jsDurationDays])
      jsMathFloor_jsNumber_five (by norm_num)
      (formatEther_roundTrip (10 ^ 18) 2000 (by norm_num))).2.2.2.1⟩

/-- C9: the notification state is a single slot — `showToastMessage`
overwrites all three toast fields (the latest call wins) and touches
nothing else; every call site in the component passes a severity among
success, warning, danger; and the Toast element is configured to
auto-dismiss after 3000 ms. -/
theorem showToastMessage_singleSlot :
    (∀ st m v m2 v2, showToastMessage m2 v2 (showToastMessage m v st)
        = showToastMessage m2 v2 st)
    ∧ (∀ st m v, (showToastMessage m v st).toastMessage = m
        ∧ (showToastMessage m v st).toastVariant = v
        ∧ (showToastMessage m v st).showToast = true
        ∧ (showToastMessage m v st).formData = st.formData
        ∧ (showToastMessage m v st).activeLoans = st.activeLoans
        ∧ (showToastMessage m v st).account = st.account
        ∧ (showToastMessage m v st).balance = st.balance)
    ∧ componentToastCalls.all (fun c => toastSeverities.contains c.2) = true
    ∧ toastDelayMs = 3000 ∧ toastAutohide = true := by
  exact ⟨fun st m v m2 v2 => rfl,
    fun st m v => ⟨rfl, rfl, rfl, rfl, rfl, rfl, rfl⟩, by decide, rfl, rfl⟩

/-- C10: the accountsChanged handler updates only the connected address
and its balance; the loan list is neither changed nor re-fetched (its
only network event is the balance query). -/
theorem accountsChanged_frame (st : ComponentState) (accounts : List String)
    (b : String) :
    (accountsChangedHandler st accounts b).1.activeLoans = st.activeLoans
    ∧ (accountsChangedHandler st accounts b).1.formData = st.formData
    ∧ (accountsChangedHandler st accounts b).1.contract = st.contract
    ∧ (accountsChangedHandler st accounts b).1.showToast = st.showToast
    ∧ (accountsChangedHandler st accounts b).1.toastMessage = st.toastMessage
    ∧ (accountsChangedHandler st accounts b).1.toastVariant = st.toastVariant
    ∧ (accountsChangedHandler st accounts b).1.account = accounts.headD ""
    ∧ (accountsChangedHandler st accounts b).1.balance = b
    ∧ (accountsChangedHandler st accounts b).2 = [Event.balanceFetch]
    ∧ Event.getAllActiveLoansRead ∉ (accountsChangedHandler st accounts b).2
    := by
  refine ⟨rfl, rfl, rfl, rfl, rfl, rfl, rfl, rfl, rfl, ?_⟩
  simp [accountsChangedHandler]

/-- Witness for C10 at a concrete account switch. -/
theorem accountsChanged_frame_witness :
    (accountsChangedHandler exampleState ["0xNew"] "2.5").1.account = "0xNew"
    ∧ (accountsChangedHandler exampleState ["0xNew"] "2.5").1.activeLoans
        = exampleState.activeLoans :=
  ⟨((accountsChanged_frame exampleState ["0xNew"]
      "2.5").2.2.2.2.2.2.1).trans rfl,
   (accountsChanged_frame exampleState ["0xNew"] "2.5").1⟩

end LendingBorrower
